import Mathlib

/-!
Shallow embedding of `create_package.py` (FluxPM).

The script is a straight-line sequence inside a `try/except/finally`
block.  We model:

  * the working directory as an association list from names to entries
    (a file with byte content, or a flat directory of files);
  * the external collaborators (tar archiver, Zstandard compressor,
    SHA-256) as parameters of the run, since the script only plumbs
    bytes through them;
  * each fallible primitive operation as a possible fault point chosen
    by an oracle (`failAt`), standing for the arbitrary `Exception`
    the `except` clause catches;
  * the `finally` block faithfully, including the fact that
    `tar_file_name` is only bound at line 31 inside the `try` body, so
    the `finally` block's `os.path.exists(tar_file_name)` raises an
    uncaught `NameError` whenever the failure happened before that
    line executed.
-/

/-- Byte sequences; file contents are lists of natural-number byte values
(ASCII codes for the text involved here). -/
abbrev Bytes := List Nat

/-- An entry of the working directory: a regular file with its content, or a
directory holding a flat list of named files (the only shape this script
ever creates or reads). -/
inductive Entry where
  | file (content : Bytes)
  | dir (files : List (String × Bytes))
deriving DecidableEq

/-- The working directory: an association list from names to entries. -/
abbrev FS := List (String × Entry)

/-- Look up an entry by name (first match). -/
def FS.lookup : FS → String → Option Entry
  | [], _ => none
  | (m, e) :: rest, n => if m = n then some e else FS.lookup rest n

/-- Remove every entry with the given name. -/
def FS.remove : FS → String → FS
  | [], _ => []
  | (m, e) :: rest, n => if m = n then FS.remove rest n else (m, e) :: FS.remove rest n

/-- Create or overwrite the entry with the given name. -/
def FS.set (fs : FS) (n : String) (e : Entry) : FS :=
  FS.remove fs n ++ [(n, e)]

/-- Existence test, as used by `os.path.exists`. -/
def FS.existsMem (fs : FS) (n : String) : Bool :=
  (FS.lookup fs n).isSome

/-- Write (create or truncate) a file inside a flat directory listing, as
`open(path, "w")` followed by writes does. -/
def setAssoc (l : List (String × Bytes)) (k : String) (v : Bytes) : List (String × Bytes) :=
  if l.any (fun p => p.1 = k) then
    l.map (fun p => if p.1 = k then (k, v) else p)
  else
    l ++ [(k, v)]

/-- Contents of a directory entry; `[]` when absent (used only at points
where the entry is known to be absent or a directory). -/
def dirContents : Option Entry → List (String × Bytes)
  | some (Entry.dir c) => c
  | _ => []

/-- Whether an optional entry is a regular file (the case in which
`os.makedirs(..., exist_ok=True)` still raises `FileExistsError`). -/
def entryIsFile : Option Entry → Bool
  | some (Entry.file _) => true
  | _ => false

/-- Content of a file entry; `[]` when absent (used only at points where the
entry is known to be a file). -/
def fileBytes : Option Entry → Bytes
  | some (Entry.file b) => b
  | _ => []

/-- Characters as byte values of a string (all text here is ASCII). -/
def strBytes (s : String) : Bytes :=
  s.data.map Char.toNat

/-- Local time at second granularity, as delivered by `datetime.now()`. -/
structure DT where
  year : Nat
  month : Nat
  day : Nat
  hour : Nat
  minute : Nat
  second : Nat
deriving DecidableEq

/-- The 14 digits of `strftime("%Y%m%d%H%M%S")`: zero-padded year (4),
month (2), day (2), hour (2), minute (2), second (2).  Faithful to the
source for any representable local time with a four-digit year. -/
def digits14 (t : DT) : List Nat :=
  [t.year / 1000 % 10, t.year / 100 % 10, t.year / 10 % 10, t.year % 10,
   t.month / 10 % 10, t.month % 10,
   t.day / 10 % 10, t.day % 10,
   t.hour / 10 % 10, t.hour % 10,
   t.minute / 10 % 10, t.minute % 10,
   t.second / 10 % 10, t.second % 10]

/-- `PACKAGE_NAME = "nginx"` (line 9). -/
def PACKAGE_NAME : String := "nginx"

/-- `PACKAGE_VERSION = datetime.now().strftime("%Y%m%d%H%M%S")` (line 11). -/
def PACKAGE_VERSION (t : DT) : String :=
  String.mk ((digits14 t).map (fun d => Char.ofNat (48 + d)))

/-- `TEMP_DIR = f"temp_{PACKAGE_NAME}"` (line 13). -/
def TEMP_DIR : String := "temp_" ++ PACKAGE_NAME

/-- `DUMMY_FILE_NAME = "README.txt"` (line 15). -/
def DUMMY_FILE_NAME : String := "README.txt"

/-- `dummy_file_path = os.path.join(TEMP_DIR, DUMMY_FILE_NAME)` (line 23). -/
def dummy_file_path : String := TEMP_DIR ++ "/" ++ DUMMY_FILE_NAME

/-- The two fixed lines written to the placeholder file (lines 25 and 26). -/
def dummyContent : Bytes :=
  strBytes ("This is a dummy file for the nginx package.\n" ++
            "This content should be used to generate a consistent checksum.\n")

/-- `tar_file_name = f"{PACKAGE_NAME}-{PACKAGE_VERSION}.tar"` (line 31). -/
def tar_file_name (t : DT) : String :=
  PACKAGE_NAME ++ "-" ++ PACKAGE_VERSION t ++ ".tar"

/-- `zst_file_name = f"{tar_file_name}.zst"` (line 32). -/
def zst_file_name (t : DT) : String :=
  tar_file_name t ++ ".zst"

/-- `os.path.basename`: the component after the last slash. -/
def basename (p : String) : String :=
  String.mk ((p.data.reverse.takeWhile (fun c => c ≠ Char.ofNat 47)).reverse)

/-- External collaborators consumed by the script (spec section 6): a tar
archiving facility, a Zstandard streaming compressor, and a SHA-256 hex
digest.  The script only feeds bytes through them, so the run is
parameterised by them. -/
structure Libs where
  tarEnc : String → List (String × Bytes) → Bytes
  zstdC : Bytes → Bytes
  sha256hex : Bytes → String

/-- The fallible primitive operations of the `try` body, in program order:
`os.makedirs` (line 21), the placeholder-file write (lines 24 to 26), tar
archive creation (lines 36 to 37), opening the compression streams
(line 42), the compression copy itself (line 43), the read-back for
hashing (lines 48 to 50), and the results printing (lines 55 to 58). -/
inductive Step where
  | makedirs
  | writeDummy
  | tarCreate
  | zstOpen
  | zstCopy
  | hashRead
  | printResults
deriving DecidableEq

/-- Whether a fault at this step happens after line 31 has bound
`tar_file_name` (so the `finally` block's reference to it is defined). -/
def Step.namesBound : Step → Bool
  | .makedirs => false
  | .writeDummy => false
  | _ => true

/-- Outcome of one invocation of the script. -/
structure RunResult where
  fs : FS
  out : List String
  err : Option String
  nameError : Bool
deriving DecidableEq

/-- The progress line printed by the `finally` block (line 65). -/
def cleanupLine : String := "\nCleaning up temporary directory: " ++ TEMP_DIR

/-- The header line of the results block (line 55). -/
def resultsHeader : String := "\n--- Results for your packages.json file ---"

/-- Remove an entry when it exists, as `if os.path.exists(n): remove` does. -/
def condRemove (fs : FS) (n : String) : FS :=
  if FS.existsMem fs n then FS.remove fs n else fs

/-- The guarded tar-file removal of lines 68 to 69; skipped entirely (with a
`NameError`) when `tar_file_name` was never bound. -/
def condRemoveTar (tarBound : Bool) (tn : String) (fs : FS) : FS :=
  if tarBound then condRemove fs tn else fs

/-- The line printed by the `except` clause (line 61), when an exception was
caught. -/
def errLine : Option String → List String
  | some m => ["An error occurred: " ++ m]
  | none => []

/-- The `except` clause and the `finally` block (lines 60 to 69): print the
error line when an exception was caught, print the cleanup line, remove the
scratch directory if present, then evaluate `os.path.exists(tar_file_name)`
— which raises an uncaught `NameError` when the failure happened before
line 31 bound that name (`nameError` records this) — and remove the tar
file if present. -/
def cleanup (tarBound : Bool) (tn : String) (fs : FS) (out : List String)
    (err : Option String) : RunResult :=
  { fs := condRemoveTar tarBound tn (condRemove fs TEMP_DIR)
  , out := out ++ errLine err ++ [cleanupLine]
  , err := err
  , nameError := !tarBound }

/-- Message of the `FileExistsError` that `os.makedirs(TEMP_DIR,
exist_ok=True)` raises when `TEMP_DIR` exists as a regular file. -/
def makedirsFileExistsMsg : String := "File exists: temp_nginx"

/-- One invocation of the script (lines 18 to 69).  `t` is the local time
read at import (line 11), `failAt` the oracle choosing which primitive
operation, if any, raises, `msg` that exception's message, `pb` the bytes
already flushed to the compressed output when the compression copy itself
is the failing step, and `fs0` the initial working directory. -/
def run (ext : Libs) (t : DT) (failAt : Option Step) (msg : String) (pb : Bytes)
    (fs0 : FS) : RunResult :=
  let tn := tar_file_name t
  let zn := zst_file_name t
  let out0 := ["Creating temporary directory: " ++ TEMP_DIR]
  if failAt = some Step.makedirs then
    cleanup false tn fs0 out0 (some msg)
  else if entryIsFile (FS.lookup fs0 TEMP_DIR) then
    cleanup false tn fs0 out0 (some makedirsFileExistsMsg)
  else
    let d0 := dirContents (FS.lookup fs0 TEMP_DIR)
    let fs1 := FS.set fs0 TEMP_DIR (Entry.dir d0)
    if failAt = some Step.writeDummy then
      cleanup false tn fs1 out0 (some msg)
    else
      let d1 := setAssoc d0 DUMMY_FILE_NAME dummyContent
      let fs2 := FS.set fs1 TEMP_DIR (Entry.dir d1)
      let out2 := out0 ++ ["Created dummy file: " ++ dummy_file_path,
                           "Creating tar archive: " ++ tn]
      if failAt = some Step.tarCreate then
        cleanup true tn fs2 out2 (some msg)
      else
        let fs3 := FS.set fs2 tn (Entry.file (ext.tarEnc (basename TEMP_DIR) d1))
        let out3 := out2 ++ ["Compressing with Zstandard: " ++ zn]
        if failAt = some Step.zstOpen then
          cleanup true tn fs3 out3 (some msg)
        else if failAt = some Step.zstCopy then
          cleanup true tn (FS.set fs3 zn (Entry.file pb)) out3 (some msg)
        else
          let fs4 := FS.set fs3 zn (Entry.file (ext.zstdC (fileBytes (FS.lookup fs3 tn))))
          let out4 := out3 ++ ["Calculating SHA256 checksum of " ++ zn]
          if failAt = some Step.hashRead then
            cleanup true tn fs4 out4 (some msg)
          else
            let checksum := ext.sha256hex (fileBytes (FS.lookup fs4 zn))
            if failAt = some Step.printResults then
              cleanup true tn fs4 out4 (some msg)
            else
              let out5 := out4 ++ [resultsHeader,
                                   "File created: " ++ zn,
                                   "Checksum: " ++ checksum,
                                   "\nYou can now use this checksum to update your packages.json file."]
              cleanup true tn fs4 out5 none

/-! ### Lemmas about the filesystem model -/

theorem FS.lookup_remove_self (fs : FS) (n : String) :
    FS.lookup (FS.remove fs n) n = none := by
  induction fs with
  | nil => rfl
  | cons p rest ih =>
    obtain ⟨m, e⟩ := p
    by_cases h : m = n <;> simp [FS.remove, FS.lookup, h, ih]

theorem FS.lookup_remove_other (fs : FS) (n m : String) (h : m ≠ n) :
    FS.lookup (FS.remove fs n) m = FS.lookup fs m := by
  induction fs with
  | nil => rfl
  | cons p rest ih =>
    obtain ⟨k, e⟩ := p
    by_cases hk : k = n
    · subst hk
      have hnm : k ≠ m := fun he => h (he.symm)
      simp [FS.remove, FS.lookup, hnm, ih]
    · by_cases hm : k = m <;> simp [FS.remove, FS.lookup, hk, hm, ih, h]

theorem FS.lookup_append (l1 l2 : FS) (n : String) :
    FS.lookup (l1 ++ l2) n =
      match FS.lookup l1 n with
      | some e => some e
      | none => FS.lookup l2 n := by
  induction l1 with
  | nil => rfl
  | cons p rest ih =>
    obtain ⟨k, e⟩ := p
    by_cases hk : k = n <;> simp [FS.lookup, hk, ih]

theorem FS.lookup_set_self (fs : FS) (n : String) (e : Entry) :
    FS.lookup (FS.set fs n e) n = some e := by
  rw [FS.set, FS.lookup_append, FS.lookup_remove_self]
  simp [FS.lookup]

theorem FS.lookup_set_other (fs : FS) (n m : String) (e : Entry) (h : m ≠ n) :
    FS.lookup (FS.set fs n e) m = FS.lookup fs m := by
  rw [FS.set, FS.lookup_append]
  rw [FS.lookup_remove_other fs n m h]
  cases hv : FS.lookup fs m with
  | some e2 => rfl
  | none =>
    have hn : n ≠ m := fun he => h he.symm
    simp [FS.lookup, hn]

theorem lookup_condRemove_self (fs : FS) (n : String) :
    FS.lookup (condRemove fs n) n = none := by
  unfold condRemove
  cases hv : FS.lookup fs n with
  | none => simp [FS.existsMem, hv]
  | some e => simp [FS.existsMem, hv, FS.lookup_remove_self]

theorem lookup_condRemove_other (fs : FS) (n m : String) (h : m ≠ n) :
    FS.lookup (condRemove fs n) m = FS.lookup fs m := by
  unfold condRemove
  by_cases he : FS.existsMem fs n <;> simp [he, FS.lookup_remove_other fs n m h]

theorem condRemoveTar_true (tn : String) (fs : FS) :
    condRemoveTar true tn fs = condRemove fs tn := rfl

theorem condRemoveTar_false (tn : String) (fs : FS) :
    condRemoveTar false tn fs = fs := rfl

theorem entryIsFile_false_of (o : Option Entry)
    (hc : ∀ b, o ≠ some (Entry.file b)) : entryIsFile o = false := by
  cases o with
  | none => rfl
  | some e =>
    cases e with
    | file b => exact absurd rfl (hc b)
    | dir c => rfl

/-! ### Lemmas about the `finally` block -/

theorem cleanup_err (b : Bool) (tn : String) (fs : FS) (out : List String)
    (err : Option String) : (cleanup b tn fs out err).err = err := rfl

theorem cleanup_out (b : Bool) (tn : String) (fs : FS) (out : List String)
    (err : Option String) :
    (cleanup b tn fs out err).out = out ++ errLine err ++ [cleanupLine] := rfl

theorem cleanupLine_mem (b : Bool) (tn : String) (fs : FS) (out : List String)
    (err : Option String) : cleanupLine ∈ (cleanup b tn fs out err).out := by
  rw [cleanup_out]
  simp

theorem errLine_mem (b : Bool) (tn : String) (fs : FS) (out : List String)
    (m : String) :
    ("An error occurred: " ++ m) ∈ (cleanup b tn fs out (some m)).out := by
  rw [cleanup_out]
  simp [errLine]

theorem cleanup_nameError (b : Bool) (tn : String) (fs : FS) (out : List String)
    (err : Option String) : (cleanup b tn fs out err).nameError = !b := rfl

theorem cleanup_fs_temp (b : Bool) (tn : String) (fs : FS) (out : List String)
    (err : Option String) (h : TEMP_DIR ≠ tn) :
    FS.lookup (cleanup b tn fs out err).fs TEMP_DIR = none := by
  cases b with
  | false => simp [cleanup, condRemoveTar_false, lookup_condRemove_self]
  | true =>
    simp [cleanup, condRemoveTar_true]
    rw [lookup_condRemove_other _ _ _ h, lookup_condRemove_self]

theorem cleanup_fs_tar (tn : String) (fs : FS) (out : List String)
    (err : Option String) : FS.lookup (cleanup true tn fs out err).fs tn = none := by
  simp [cleanup, condRemoveTar_true, lookup_condRemove_self]

theorem cleanup_fs_other (b : Bool) (tn : String) (fs : FS) (out : List String)
    (err : Option String) (m : String) (h1 : m ≠ TEMP_DIR) (h2 : m ≠ tn) :
    FS.lookup (cleanup b tn fs out err).fs m = FS.lookup fs m := by
  cases b with
  | false => simp [cleanup, condRemoveTar_false, lookup_condRemove_other _ _ _ h1]
  | true =>
    simp [cleanup, condRemoveTar_true]
    rw [lookup_condRemove_other _ _ _ h2, lookup_condRemove_other _ _ _ h1]

theorem cleanup_fs_unbound (tn : String) (fs : FS) (out : List String)
    (err : Option String) (m : String) (h1 : m ≠ TEMP_DIR) :
    FS.lookup (cleanup false tn fs out err).fs m = FS.lookup fs m := by
  simp [cleanup, condRemoveTar_false, lookup_condRemove_other _ _ _ h1]

/-! ### Facts about the generated file names -/

theorem PACKAGE_VERSION_length (t : DT) : (PACKAGE_VERSION t).length = 14 := by
  simp [PACKAGE_VERSION, digits14]

theorem tar_file_name_length (t : DT) : (tar_file_name t).length = 24 := by
  simp [tar_file_name, String.length_append, PACKAGE_VERSION_length]
  decide

theorem zst_file_name_length (t : DT) : (zst_file_name t).length = 28 := by
  simp [zst_file_name, String.length_append, tar_file_name_length]
  decide

theorem temp_ne_tar (t : DT) : TEMP_DIR ≠ tar_file_name t := by
  intro h
  have hl := congrArg String.length h
  rw [tar_file_name_length] at hl
  have h10 : TEMP_DIR.length = 10 := by decide
  omega

theorem tar_ne_temp (t : DT) : tar_file_name t ≠ TEMP_DIR :=
  fun h => temp_ne_tar t h.symm

theorem temp_ne_zst (t : DT) : TEMP_DIR ≠ zst_file_name t := by
  intro h
  have hl := congrArg String.length h
  rw [zst_file_name_length] at hl
  have h10 : TEMP_DIR.length = 10 := by decide
  omega

theorem zst_ne_temp (t : DT) : zst_file_name t ≠ TEMP_DIR :=
  fun h => temp_ne_zst t h.symm

theorem tar_ne_zst (t : DT) : tar_file_name t ≠ zst_file_name t := by
  intro h
  have hl := congrArg String.length h
  rw [tar_file_name_length, zst_file_name_length] at hl
  omega

theorem zst_ne_tar (t : DT) : zst_file_name t ≠ tar_file_name t :=
  fun h => tar_ne_zst t h.symm

/-! ### Named intermediate stages of the run (subterms of `run`) -/

/-- The first progress line (line 20 of the source). -/
def line1 : String := "Creating temporary directory: " ++ TEMP_DIR

/-- Scratch-directory contents found at run start. -/
def d0of (fs0 : FS) : List (String × Bytes) :=
  dirContents (FS.lookup fs0 TEMP_DIR)

/-- Working directory after `os.makedirs` succeeded. -/
def fs1of (fs0 : FS) : FS :=
  FS.set fs0 TEMP_DIR (Entry.dir (d0of fs0))

/-- Scratch-directory contents after the placeholder file was written. -/
def d1of (fs0 : FS) : List (String × Bytes) :=
  setAssoc (d0of fs0) DUMMY_FILE_NAME dummyContent

/-- Working directory after the placeholder file was written. -/
def fs2of (fs0 : FS) : FS :=
  FS.set (fs1of fs0) TEMP_DIR (Entry.dir (d1of fs0))

/-- Output lines printed up to (and including) line 35. -/
def out2of (t : DT) : List String :=
  [line1, "Created dummy file: " ++ dummy_file_path,
   "Creating tar archive: " ++ tar_file_name t]

/-- The bytes the tar facility produces for the scratch directory. -/
def tarBytes (ext : Libs) (fs0 : FS) : Bytes :=
  ext.tarEnc (basename TEMP_DIR) (d1of fs0)

/-- Working directory after the tar archive was written. -/
def fs3of (ext : Libs) (t : DT) (fs0 : FS) : FS :=
  FS.set (fs2of fs0) (tar_file_name t) (Entry.file (tarBytes ext fs0))

/-- Output lines printed up to (and including) line 40. -/
def out3of (t : DT) : List String :=
  out2of t ++ ["Compressing with Zstandard: " ++ zst_file_name t]

/-- The compressed bytes: the compressor applied to the tar file as read
back from disk. -/
def zstBytes (ext : Libs) (t : DT) (fs0 : FS) : Bytes :=
  ext.zstdC (fileBytes (FS.lookup (fs3of ext t fs0) (tar_file_name t)))

/-- Working directory after compression completed. -/
def fs4of (ext : Libs) (t : DT) (fs0 : FS) : FS :=
  FS.set (fs3of ext t fs0) (zst_file_name t) (Entry.file (zstBytes ext t fs0))

/-- Output lines printed up to (and including) line 46. -/
def out4of (t : DT) : List String :=
  out3of t ++ ["Calculating SHA256 checksum of " ++ zst_file_name t]

/-- The digest printed in the results block: the hash applied to the
compressed file as read back from disk (lines 47 to 52). -/
def checksumOf (ext : Libs) (t : DT) (fs0 : FS) : String :=
  ext.sha256hex (fileBytes (FS.lookup (fs4of ext t fs0) (zst_file_name t)))

/-- All output lines of a fully successful `try` body. -/
def out5of (ext : Libs) (t : DT) (fs0 : FS) : List String :=
  out4of t ++ [resultsHeader, "File created: " ++ zst_file_name t,
               "Checksum: " ++ checksumOf ext t fs0,
               "\nYou can now use this checksum to update your packages.json file."]

/-! ### Branch characterization of `run` -/

theorem run_fail_makedirs (ext : Libs) (t : DT) (msg : String) (pb : Bytes) (fs0 : FS) :
    run ext t (some Step.makedirs) msg pb fs0 =
      cleanup false (tar_file_name t) fs0 [line1] (some msg) := by
  simp [run, line1]

theorem run_collision (ext : Libs) (t : DT) (failAt : Option Step) (msg : String)
    (pb : Bytes) (fs0 : FS) (hne : failAt ≠ some Step.makedirs)
    (hF : entryIsFile (FS.lookup fs0 TEMP_DIR) = true) :
    run ext t failAt msg pb fs0 =
      cleanup false (tar_file_name t) fs0 [line1] (some makedirsFileExistsMsg) := by
  simp [run, hne, hF, line1]

theorem run_fail_writeDummy (ext : Libs) (t : DT) (msg : String) (pb : Bytes) (fs0 : FS)
    (hF : entryIsFile (FS.lookup fs0 TEMP_DIR) = false) :
    run ext t (some Step.writeDummy) msg pb fs0 =
      cleanup false (tar_file_name t) (fs1of fs0) [line1] (some msg) := by
  simp [run, hF, line1, fs1of, d0of]

theorem run_fail_tarCreate (ext : Libs) (t : DT) (msg : String) (pb : Bytes) (fs0 : FS)
    (hF : entryIsFile (FS.lookup fs0 TEMP_DIR) = false) :
    run ext t (some Step.tarCreate) msg pb fs0 =
      cleanup true (tar_file_name t) (fs2of fs0) (out2of t) (some msg) := by
  simp [run, hF, line1, fs2of, fs1of, d1of, d0of, out2of]

theorem run_fail_zstOpen (ext : Libs) (t : DT) (msg : String) (pb : Bytes) (fs0 : FS)
    (hF : entryIsFile (FS.lookup fs0 TEMP_DIR) = false) :
    run ext t (some Step.zstOpen) msg pb fs0 =
      cleanup true (tar_file_name t) (fs3of ext t fs0) (out3of t) (some msg) := by
  simp [run, hF, line1, fs3of, fs2of, fs1of, d1of, d0of, out3of, out2of, tarBytes]

theorem run_fail_zstCopy (ext : Libs) (t : DT) (msg : String) (pb : Bytes) (fs0 : FS)
    (hF : entryIsFile (FS.lookup fs0 TEMP_DIR) = false) :
    run ext t (some Step.zstCopy) msg pb fs0 =
      cleanup true (tar_file_name t)
        (FS.set (fs3of ext t fs0) (zst_file_name t) (Entry.file pb))
        (out3of t) (some msg) := by
  simp [run, hF, line1, fs3of, fs2of, fs1of, d1of, d0of, out3of, out2of, tarBytes]

theorem run_fail_hashRead (ext : Libs) (t : DT) (msg : String) (pb : Bytes) (fs0 : FS)
    (hF : entryIsFile (FS.lookup fs0 TEMP_DIR) = false) :
    run ext t (some Step.hashRead) msg pb fs0 =
      cleanup true (tar_file_name t) (fs4of ext t fs0) (out4of t) (some msg) := by
  simp [run, hF, line1, fs4of, fs3of, fs2of, fs1of, d1of, d0of, out4of, out3of,
        out2of, tarBytes, zstBytes]

theorem run_fail_printResults (ext : Libs) (t : DT) (msg : String) (pb : Bytes) (fs0 : FS)
    (hF : entryIsFile (FS.lookup fs0 TEMP_DIR) = false) :
    run ext t (some Step.printResults) msg pb fs0 =
      cleanup true (tar_file_name t) (fs4of ext t fs0) (out4of t) (some msg) := by
  simp [run, hF, line1, fs4of, fs3of, fs2of, fs1of, d1of, d0of, out4of, out3of,
        out2of, tarBytes, zstBytes]

theorem run_ok (ext : Libs) (t : DT) (msg : String) (pb : Bytes) (fs0 : FS)
    (hF : entryIsFile (FS.lookup fs0 TEMP_DIR) = false) :
    run ext t none msg pb fs0 =
      cleanup true (tar_file_name t) (fs4of ext t fs0) (out5of ext t fs0) none := by
  simp [run, hF, line1, fs4of, fs3of, fs2of, fs1of, d1of, d0of, out5of, out4of,
        out3of, out2of, tarBytes, zstBytes, checksumOf]

/-! ### Simplified forms of the stage values -/

theorem zstBytes_eq (ext : Libs) (t : DT) (fs0 : FS) :
    zstBytes ext t fs0 = ext.zstdC (tarBytes ext fs0) := by
  unfold zstBytes fs3of
  rw [FS.lookup_set_self]
  rfl

theorem checksumOf_eq (ext : Libs) (t : DT) (fs0 : FS) :
    checksumOf ext t fs0 = ext.sha256hex (zstBytes ext t fs0) := by
  unfold checksumOf fs4of
  rw [FS.lookup_set_self]
  rfl

theorem lookup_fs4_zst (ext : Libs) (t : DT) (fs0 : FS) :
    FS.lookup (fs4of ext t fs0) (zst_file_name t) =
      some (Entry.file (zstBytes ext t fs0)) := by
  unfold fs4of
  exact FS.lookup_set_self _ _ _

theorem lookup_fs4_other (ext : Libs) (t : DT) (fs0 : FS) (m : String)
    (h1 : m ≠ TEMP_DIR) (h2 : m ≠ tar_file_name t) (h3 : m ≠ zst_file_name t) :
    FS.lookup (fs4of ext t fs0) m = FS.lookup fs0 m := by
  unfold fs4of fs3of fs2of fs1of
  rw [FS.lookup_set_other _ _ _ _ h3, FS.lookup_set_other _ _ _ _ h2,
      FS.lookup_set_other _ _ _ _ h1, FS.lookup_set_other _ _ _ _ h1]

/-! ### String helpers for distinguishing output lines -/

theorem ne_append_left (a b c : String) (hb : b.data ≠ [])
    (h : a.data.head? ≠ b.data.head?) : a ≠ b ++ c := by
  intro e
  apply h
  rw [e, String.data_append]
  cases hbd : b.data with
  | nil => exact absurd hbd hb
  | cons x xs => simp [hbd]

theorem hdr_ne_line1 : resultsHeader ≠ line1 := by decide

theorem hdr_ne_line2 : resultsHeader ≠ "Created dummy file: " ++ dummy_file_path := by
  decide

theorem hdr_ne_cleanupLine : resultsHeader ≠ cleanupLine := by decide

theorem hdr_ne_tarline (t : DT) :
    resultsHeader ≠ "Creating tar archive: " ++ tar_file_name t :=
  ne_append_left _ _ _ (by decide) (by decide)

theorem hdr_ne_zline (t : DT) :
    resultsHeader ≠ "Compressing with Zstandard: " ++ zst_file_name t :=
  ne_append_left _ _ _ (by decide) (by decide)

theorem hdr_ne_cline (t : DT) :
    resultsHeader ≠ "Calculating SHA256 checksum of " ++ zst_file_name t :=
  ne_append_left _ _ _ (by decide) (by decide)

theorem hdr_ne_errline (m : String) :
    resultsHeader ≠ "An error occurred: " ++ m :=
  ne_append_left _ _ _ (by decide) (by decide)

theorem hdr_notin_errLine (err : Option String) : resultsHeader ∉ errLine err := by
  cases err with
  | none => simp [errLine]
  | some m =>
    simp [errLine]
    exact hdr_ne_errline m

theorem hdr_notin_line1 : resultsHeader ∉ [line1] := by
  simp
  exact hdr_ne_line1

theorem hdr_notin_out2 (t : DT) : resultsHeader ∉ out2of t := by
  intro hmem
  simp [out2of] at hmem
  rcases hmem with h | h | h
  · exact hdr_ne_line1 h
  · exact hdr_ne_line2 h
  · exact hdr_ne_tarline t h

theorem hdr_notin_out3 (t : DT) : resultsHeader ∉ out3of t := by
  intro hmem
  rw [out3of] at hmem
  rcases List.mem_append.mp hmem with h | h
  · exact hdr_notin_out2 t h
  · exact hdr_ne_zline t (List.mem_singleton.mp h)

theorem hdr_notin_out4 (t : DT) : resultsHeader ∉ out4of t := by
  intro hmem
  rw [out4of] at hmem
  rcases List.mem_append.mp hmem with h | h
  · exact hdr_notin_out3 t h
  · exact hdr_ne_cline t (List.mem_singleton.mp h)

theorem hdr_notin_cleanup_out (b : Bool) (tn : String) (fs : FS)
    (out : List String) (err : Option String) (h : resultsHeader ∉ out) :
    resultsHeader ∉ (cleanup b tn fs out err).out := by
  intro hmem
  rw [cleanup_out] at hmem
  rcases List.mem_append.mp hmem with h1 | h1
  · rcases List.mem_append.mp h1 with h2 | h2
    · exact h h2
    · exact hdr_notin_errLine err h2
  · exact hdr_ne_cleanupLine (List.mem_singleton.mp h1)

/-! ### Success characterization -/

theorem err_none_split (ext : Libs) (t : DT) (failAt : Option Step) (msg : String)
    (pb : Bytes) (fs0 : FS) (h : (run ext t failAt msg pb fs0).err = none) :
    failAt = none ∧ entryIsFile (FS.lookup fs0 TEMP_DIR) = false := by
  by_cases hF : entryIsFile (FS.lookup fs0 TEMP_DIR) = true
  · by_cases hm : failAt = some Step.makedirs
    · rw [hm, run_fail_makedirs] at h
      exact absurd h (by simp [cleanup])
    · rw [run_collision _ _ _ _ _ _ hm hF] at h
      exact absurd h (by simp [cleanup])
  · have hF2 : entryIsFile (FS.lookup fs0 TEMP_DIR) = false := by
      simpa using hF
    refine ⟨?_, hF2⟩
    cases failAt with
    | none => rfl
    | some k =>
      exfalso
      cases k with
      | makedirs => rw [run_fail_makedirs] at h; simp [cleanup] at h
      | writeDummy => rw [run_fail_writeDummy _ _ _ _ _ hF2] at h; simp [cleanup] at h
      | tarCreate => rw [run_fail_tarCreate _ _ _ _ _ hF2] at h; simp [cleanup] at h
      | zstOpen => rw [run_fail_zstOpen _ _ _ _ _ hF2] at h; simp [cleanup] at h
      | zstCopy => rw [run_fail_zstCopy _ _ _ _ _ hF2] at h; simp [cleanup] at h
      | hashRead => rw [run_fail_hashRead _ _ _ _ _ hF2] at h; simp [cleanup] at h
      | printResults => rw [run_fail_printResults _ _ _ _ _ hF2] at h; simp [cleanup] at h

/-! ### Preservation of tar and zst entries across the stages -/

theorem lookup_fs1_other (fs0 : FS) (m : String) (h : m ≠ TEMP_DIR) :
    FS.lookup (fs1of fs0) m = FS.lookup fs0 m := by
  unfold fs1of
  exact FS.lookup_set_other _ _ _ _ h

theorem lookup_fs2_other (fs0 : FS) (m : String) (h : m ≠ TEMP_DIR) :
    FS.lookup (fs2of fs0) m = FS.lookup fs0 m := by
  unfold fs2of
  rw [FS.lookup_set_other _ _ _ _ h]
  exact lookup_fs1_other fs0 m h

theorem lookup_fs3_other (ext : Libs) (t : DT) (fs0 : FS) (m : String)
    (h1 : m ≠ TEMP_DIR) (h2 : m ≠ tar_file_name t) :
    FS.lookup (fs3of ext t fs0) m = FS.lookup fs0 m := by
  unfold fs3of
  rw [FS.lookup_set_other _ _ _ _ h2]
  exact lookup_fs2_other fs0 m h1

/-! ### Concrete external collaborators for witnesses

A genuinely invertible length-prefixed serialisation plays the tar
archiver, the identity plays the Zstandard codec, and a simple
accumulator plays the hash.  The claims quantify over arbitrary
collaborators; these concrete ones only instantiate them. -/

/-- Length-prefixed encoding of a string. -/
def encStr (s : String) : Bytes := s.length :: strBytes s

/-- Length-prefixed encoding of one archive member. -/
def encFileEntry (p : String × Bytes) : Bytes :=
  encStr p.1 ++ p.2.length :: p.2

/-- Concrete tar encoder: archive name, member count, then the members. -/
def tarEnc0 (a : String) (c : List (String × Bytes)) : Bytes :=
  encStr a ++ c.length :: (c.map encFileEntry).flatten

/-- Decode a length-prefixed string. -/
def decStr : Bytes → Option (String × Bytes)
  | [] => none
  | n :: rest =>
    if n ≤ rest.length then
      some (String.mk ((rest.take n).map Char.ofNat), rest.drop n)
    else none

/-- Decode a length-prefixed byte chunk. -/
def decChunk : Bytes → Option (Bytes × Bytes)
  | [] => none
  | n :: rest =>
    if n ≤ rest.length then some (rest.take n, rest.drop n) else none

/-- Decode a given number of archive members. -/
def decFiles : Nat → Bytes → Option (List (String × Bytes) × Bytes)
  | 0, b => some ([], b)
  | Nat.succ k, b =>
    match decStr b with
    | none => none
    | some (nm, b1) =>
      match decChunk b1 with
      | none => none
      | some (content, b2) =>
        match decFiles k b2 with
        | none => none
        | some (files, b3) => some ((nm, content) :: files, b3)

/-- Concrete tar extractor, the inverse of `tarEnc0`: recover the single
top-level directory name and its members. -/
def tarDec0 (b : Bytes) : Option (String × List (String × Bytes)) :=
  match decStr b with
  | none => none
  | some (a, b1) =>
    match b1 with
    | [] => none
    | n :: b2 =>
      match decFiles n b2 with
      | some (files, []) => some (a, files)
      | _ => none

/-- Concrete compressor used to instantiate the claims. -/
def zstdC0 (b : Bytes) : Bytes := b

/-- Concrete decompressor, inverse of `zstdC0`. -/
def zstdD0 (b : Bytes) : Bytes := b

/-- Concrete stand-in for the hex digest function. -/
def sha256hex0 (b : Bytes) : String :=
  toString (b.foldl (fun a n => 31 * a + n + 1) 0)

/-- The concrete collaborator bundle. -/
def ext0 : Libs := ⟨tarEnc0, zstdC0, sha256hex0⟩

/-- A concrete run-start local time. -/
def t0 : DT := ⟨2026, 10, 12, 13, 14, 15⟩

/-! ### Membership in the archived directory listing -/

theorem setAssoc_self_mem (l : List (String × Bytes)) (k : String) (v : Bytes) :
    (k, v) ∈ setAssoc l k v := by
  unfold setAssoc
  by_cases h : l.any (fun p => p.1 = k)
  · simp only [h, if_true]
    rw [List.any_eq_true] at h
    obtain ⟨p, hp, hpk⟩ := h
    refine List.mem_map.mpr ⟨p, hp, ?_⟩
    simp only [decide_eq_true_eq] at hpk
    simp [hpk]
  · simp [h]

theorem setAssoc_mem_of (l : List (String × Bytes)) (k : String) (v : Bytes)
    (p : String × Bytes) (hp : p ∈ l) (hne : p.1 ≠ k) : p ∈ setAssoc l k v := by
  unfold setAssoc
  by_cases h : l.any (fun q => q.1 = k)
  · simp only [h, if_true]
    refine List.mem_map.mpr ⟨p, hp, ?_⟩
    simp [hne]
  · simp only [h, if_false]
    exact List.mem_append.mpr (Or.inl hp)

/-! ### Digits of the version string -/

theorem digits14_lt (t : DT) : ∀ d ∈ digits14 t, d < 10 := by
  intro d hd
  simp [digits14] at hd
  rcases hd with h | h | h | h | h | h | h | h | h | h | h | h | h | h <;>
    (subst h; omega)

theorem version_chars_digit (t : DT) :
    ∀ c ∈ (PACKAGE_VERSION t).data, c.isDigit = true := by
  intro c hc
  have hdig : ∀ d : Nat, d < 10 → (Char.ofNat (48 + d)).isDigit = true := by decide
  simp [PACKAGE_VERSION] at hc
  obtain ⟨d, hd, rfl⟩ := hc
  exact hdig d (digits14_lt t d hd)

/-! ### Claims -/

/-- C2: for every successful run, the checksum printed in the results block
is the hash function applied to exactly the byte content of the retained
`.tar.zst` file as it exists on disk after the run (the digest is taken
from the fully written compressed file, after the compressor closed it). -/
theorem C2_checksum_is_digest_of_retained_file (ext : Libs) (t : DT)
    (failAt : Option Step) (msg : String) (pb : Bytes) (fs0 : FS)
    (h : (run ext t failAt msg pb fs0).err = none) :
    ∃ zb, FS.lookup (run ext t failAt msg pb fs0).fs (zst_file_name t) =
        some (Entry.file zb) ∧
      ("Checksum: " ++ ext.sha256hex zb) ∈ (run ext t failAt msg pb fs0).out := by
  obtain ⟨hfa, hF⟩ := err_none_split ext t failAt msg pb fs0 h
  subst hfa
  rw [run_ok ext t msg pb fs0 hF]
  refine ⟨zstBytes ext t fs0, ?_, ?_⟩
  · rw [cleanup_fs_other _ _ _ _ _ _ (zst_ne_temp t) (zst_ne_tar t), lookup_fs4_zst]
  · rw [cleanup_out]
    have hcs : checksumOf ext t fs0 = ext.sha256hex (zstBytes ext t fs0) :=
      checksumOf_eq ext t fs0
    simp [out5of, out4of, out3of, out2of, hcs]

/-- Closed witness for C2 at a concrete collaborator bundle, time and empty
working directory. -/
theorem C2_checksum_is_digest_of_retained_file_witness :
    ∃ zb, FS.lookup (run ext0 t0 none "m" [] []).fs (zst_file_name t0) =
        some (Entry.file zb) ∧
      ("Checksum: " ++ ext0.sha256hex zb) ∈ (run ext0 t0 none "m" [] []).out :=
  C2_checksum_is_digest_of_retained_file ext0 t0 none "m" [] [] rfl

/-- C6: for every successful run at a representable four-digit-year local
time, the retained output file exists in the final working directory, its
name is `nginx-` followed by the version string and `.tar.zst`, and the
version string is the 14-digit `YYYYMMDDHHMMSS` rendering of the run-start
time. -/
theorem C6_output_name_pattern (ext : Libs) (t : DT) (failAt : Option Step)
    (msg : String) (pb : Bytes) (fs0 : FS)
    (hy1 : 1000 ≤ t.year) (hy2 : t.year ≤ 9999)
    (h : (run ext t failAt msg pb fs0).err = none) :
    (∃ zb, FS.lookup (run ext t failAt msg pb fs0).fs (zst_file_name t) =
        some (Entry.file zb)) ∧
    zst_file_name t = PACKAGE_NAME ++ "-" ++ PACKAGE_VERSION t ++ ".tar.zst" ∧
    (PACKAGE_VERSION t).length = 14 ∧
    (∀ c ∈ (PACKAGE_VERSION t).data, c.isDigit = true) := by
  obtain ⟨hfa, hF⟩ := err_none_split ext t failAt msg pb fs0 h
  subst hfa
  refine ⟨?_, ?_, PACKAGE_VERSION_length t, version_chars_digit t⟩
  · rw [run_ok ext t msg pb fs0 hF]
    exact ⟨zstBytes ext t fs0, by
      rw [cleanup_fs_other _ _ _ _ _ _ (zst_ne_temp t) (zst_ne_tar t), lookup_fs4_zst]⟩
  · show tar_file_name t ++ ".zst" = PACKAGE_NAME ++ "-" ++ PACKAGE_VERSION t ++ ".tar.zst"
    rw [tar_file_name]
    rw [String.append_assoc, String.append_assoc, String.append_assoc]
    rw [show (".tar" : String) ++ ".zst" = ".tar.zst" from rfl]
    rw [← String.append_assoc, ← String.append_assoc]

/-- Closed witness for C6 at a concrete collaborator bundle and time. -/
theorem C6_output_name_pattern_witness :
    (∃ zb, FS.lookup (run ext0 t0 none "m" [] []).fs (zst_file_name t0) =
        some (Entry.file zb)) ∧
    zst_file_name t0 = PACKAGE_NAME ++ "-" ++ PACKAGE_VERSION t0 ++ ".tar.zst" ∧
    (PACKAGE_VERSION t0).length = 14 ∧
    (∀ c ∈ (PACKAGE_VERSION t0).data, c.isDigit = true) :=
  C6_output_name_pattern ext0 t0 none "m" [] [] (by decide) (by decide) rfl

/-- C4 counterexample: a run that raises at `os.makedirs`, over a working
directory that already holds a file under the intermediate tar name.  The
run raises at a step, yet the cleanup phase never completes a removal
attempt for the intermediate tar file: the `finally` block's existence
check raises the uncaught `NameError` (tar filename unbound) and the
tar-named file survives the run — refuting the claim's "for every run,
whether it succeeds or raises at any step, the cleanup phase attempts
removal of ... the intermediate .tar file". -/
theorem C4_counterexample :
    (run ext0 t0 (some Step.makedirs) "m" []
        [(tar_file_name t0, Entry.file [9])]).err = some "m" ∧
    (run ext0 t0 (some Step.makedirs) "m" []
        [(tar_file_name t0, Entry.file [9])]).nameError = true ∧
    FS.lookup (run ext0 t0 (some Step.makedirs) "m" []
        [(tar_file_name t0, Entry.file [9])]).fs (tar_file_name t0) =
      some (Entry.file [9]) := by
  refine ⟨rfl, rfl, ?_⟩
  decide

/-- C4 (amended): in every run the cleanup phase runs (its progress line is
printed) and leaves no scratch directory behind; the compressed output file
is never removed (whatever entry the initial state held under that name,
some entry is still there afterwards); the intermediate tar file is removed
in every run whose cleanup reaches the tar-file check without the uncaught
`NameError` — in particular after every successful run, which does
terminate normally, neither the scratch directory nor the tar file
remains. -/
theorem C4_amended_cleanup_scope (ext : Libs) (t : DT) (failAt : Option Step)
    (msg : String) (pb : Bytes) (fs0 : FS) :
    cleanupLine ∈ (run ext t failAt msg pb fs0).out ∧
    FS.lookup (run ext t failAt msg pb fs0).fs TEMP_DIR = none ∧
    ((run ext t failAt msg pb fs0).nameError = false →
      FS.lookup (run ext t failAt msg pb fs0).fs (tar_file_name t) = none) ∧
    ((run ext t failAt msg pb fs0).err = none →
      (run ext t failAt msg pb fs0).nameError = false) ∧
    (∀ e, FS.lookup fs0 (zst_file_name t) = some e →
      ∃ e2, FS.lookup (run ext t failAt msg pb fs0).fs (zst_file_name t) = some e2) := by
  have hNE : ∀ (tn : String) (fsx : FS) (ox : List String) (ex : Option String),
      (cleanup false tn fsx ox ex).nameError = false →
      FS.lookup (cleanup false tn fsx ox ex).fs tn = none := by
    intro tn fsx ox ex hne
    rw [cleanup_nameError] at hne
    simp at hne
  have hERR : ∀ (b : Bool) (tn : String) (fsx : FS) (ox : List String) (m : String),
      (cleanup b tn fsx ox (some m)).err = none →
      (cleanup b tn fsx ox (some m)).nameError = false := by
    intro b tn fsx ox m he
    rw [cleanup_err] at he
    simp at he
  by_cases hF : entryIsFile (FS.lookup fs0 TEMP_DIR) = true
  · by_cases hm : failAt = some Step.makedirs
    · rw [hm, run_fail_makedirs]
      refine ⟨cleanupLine_mem _ _ _ _ _, cleanup_fs_temp _ _ _ _ _ (temp_ne_tar t),
        hNE _ _ _ _, hERR _ _ _ _ _, ?_⟩
      intro e he
      rw [cleanup_fs_unbound _ _ _ _ _ (zst_ne_temp t)]
      exact ⟨e, he⟩
    · rw [run_collision _ _ _ _ _ _ hm hF]
      refine ⟨cleanupLine_mem _ _ _ _ _, cleanup_fs_temp _ _ _ _ _ (temp_ne_tar t),
        hNE _ _ _ _, hERR _ _ _ _ _, ?_⟩
      intro e he
      rw [cleanup_fs_unbound _ _ _ _ _ (zst_ne_temp t)]
      exact ⟨e, he⟩
  · have hF2 : entryIsFile (FS.lookup fs0 TEMP_DIR) = false := by simpa using hF
    cases failAt with
    | none =>
      rw [run_ok ext t msg pb fs0 hF2]
      refine ⟨cleanupLine_mem _ _ _ _ _, cleanup_fs_temp _ _ _ _ _ (temp_ne_tar t),
        fun _ => cleanup_fs_tar _ _ _ _, fun _ => rfl, ?_⟩
      intro e he
      refine ⟨Entry.file (zstBytes ext t fs0), ?_⟩
      rw [cleanup_fs_other _ _ _ _ _ _ (zst_ne_temp t) (zst_ne_tar t), lookup_fs4_zst]
    | some k =>
      cases k with
      | makedirs =>
        rw [run_fail_makedirs]
        refine ⟨cleanupLine_mem _ _ _ _ _, cleanup_fs_temp _ _ _ _ _ (temp_ne_tar t),
          hNE _ _ _ _, hERR _ _ _ _ _, ?_⟩
        intro e he
        rw [cleanup_fs_unbound _ _ _ _ _ (zst_ne_temp t)]
        exact ⟨e, he⟩
      | writeDummy =>
        rw [run_fail_writeDummy _ _ _ _ _ hF2]
        refine ⟨cleanupLine_mem _ _ _ _ _, cleanup_fs_temp _ _ _ _ _ (temp_ne_tar t),
          hNE _ _ _ _, hERR _ _ _ _ _, ?_⟩
        intro e he
        rw [cleanup_fs_unbound _ _ _ _ _ (zst_ne_temp t),
            lookup_fs1_other fs0 _ (zst_ne_temp t)]
        exact ⟨e, he⟩
      | tarCreate =>
        rw [run_fail_tarCreate _ _ _ _ _ hF2]
        refine ⟨cleanupLine_mem _ _ _ _ _, cleanup_fs_temp _ _ _ _ _ (temp_ne_tar t),
          fun _ => cleanup_fs_tar _ _ _ _, hERR _ _ _ _ _, ?_⟩
        intro e he
        rw [cleanup_fs_other _ _ _ _ _ _ (zst_ne_temp t) (zst_ne_tar t),
            lookup_fs2_other fs0 _ (zst_ne_temp t)]
        exact ⟨e, he⟩
      | zstOpen =>
        rw [run_fail_zstOpen _ _ _ _ _ hF2]
        refine ⟨cleanupLine_mem _ _ _ _ _, cleanup_fs_temp _ _ _ _ _ (temp_ne_tar t),
          fun _ => cleanup_fs_tar _ _ _ _, hERR _ _ _ _ _, ?_⟩
        intro e he
        rw [cleanup_fs_other _ _ _ _ _ _ (zst_ne_temp t) (zst_ne_tar t),
            lookup_fs3_other ext t fs0 _ (zst_ne_temp t) (zst_ne_tar t)]
        exact ⟨e, he⟩
      | zstCopy =>
        rw [run_fail_zstCopy _ _ _ _ _ hF2]
        refine ⟨cleanupLine_mem _ _ _ _ _, cleanup_fs_temp _ _ _ _ _ (temp_ne_tar t),
          fun _ => cleanup_fs_tar _ _ _ _, hERR _ _ _ _ _, ?_⟩
        intro e he
        refine ⟨Entry.file pb, ?_⟩
        rw [cleanup_fs_other _ _ _ _ _ _ (zst_ne_temp t) (zst_ne_tar t),
            FS.lookup_set_self]
      | hashRead =>
        rw [run_fail_hashRead _ _ _ _ _ hF2]
        refine ⟨cleanupLine_mem _ _ _ _ _, cleanup_fs_temp _ _ _ _ _ (temp_ne_tar t),
          fun _ => cleanup_fs_tar _ _ _ _, hERR _ _ _ _ _, ?_⟩
        intro e he
        refine ⟨Entry.file (zstBytes ext t fs0), ?_⟩
        rw [cleanup_fs_other _ _ _ _ _ _ (zst_ne_temp t) (zst_ne_tar t), lookup_fs4_zst]
      | printResults =>
        rw [run_fail_printResults _ _ _ _ _ hF2]
        refine ⟨cleanupLine_mem _ _ _ _ _, cleanup_fs_temp _ _ _ _ _ (temp_ne_tar t),
          fun _ => cleanup_fs_tar _ _ _ _, hERR _ _ _ _ _, ?_⟩
        intro e he
        refine ⟨Entry.file (zstBytes ext t fs0), ?_⟩
        rw [cleanup_fs_other _ _ _ _ _ _ (zst_ne_temp t) (zst_ne_tar t), lookup_fs4_zst]

/-- Closed witness for the amended C4: a successful run over a working
directory that already holds a file under the output name; the scratch
directory and tar file are gone afterwards, termination was normal, and the
output name is still occupied. -/
theorem C4_amended_cleanup_scope_witness :
    cleanupLine ∈ (run ext0 t0 none "m" [] [(zst_file_name t0, Entry.file [7])]).out ∧
    FS.lookup (run ext0 t0 none "m" [] [(zst_file_name t0, Entry.file [7])]).fs
      TEMP_DIR = none ∧
    FS.lookup (run ext0 t0 none "m" [] [(zst_file_name t0, Entry.file [7])]).fs
      (tar_file_name t0) = none ∧
    (run ext0 t0 none "m" [] [(zst_file_name t0, Entry.file [7])]).nameError = false ∧
    ∃ e2, FS.lookup (run ext0 t0 none "m" [] [(zst_file_name t0, Entry.file [7])]).fs
      (zst_file_name t0) = some e2 := by
  obtain ⟨h1, h2, h3, h4, h5⟩ :=
    C4_amended_cleanup_scope ext0 t0 none "m" [] [(zst_file_name t0, Entry.file [7])]
  exact ⟨h1, h2, h3 rfl, h4 rfl, h5 (Entry.file [7]) (by simp [FS.lookup])⟩

/-- C7: in every run whose oracle makes step `k` raise, the results block is
never printed; the output files of later steps are never created by the run
(the compressed file is untouched when the fault is at or before opening the
compression streams, the tar file is untouched when the fault is before the
archiving step); and the cleanup phase still runs, leaving no scratch
directory. -/
theorem C7_fault_stops_later_steps (ext : Libs) (t : DT) (k : Step)
    (msg : String) (pb : Bytes) (fs0 : FS) :
    resultsHeader ∉ (run ext t (some k) msg pb fs0).out ∧
    cleanupLine ∈ (run ext t (some k) msg pb fs0).out ∧
    FS.lookup (run ext t (some k) msg pb fs0).fs TEMP_DIR = none ∧
    ((k = Step.makedirs ∨ k = Step.writeDummy ∨ k = Step.tarCreate ∨
        k = Step.zstOpen) →
      FS.lookup (run ext t (some k) msg pb fs0).fs (zst_file_name t) =
        FS.lookup fs0 (zst_file_name t)) ∧
    ((k = Step.makedirs ∨ k = Step.writeDummy) →
      FS.lookup (run ext t (some k) msg pb fs0).fs (tar_file_name t) =
        FS.lookup fs0 (tar_file_name t)) := by
  by_cases hF : entryIsFile (FS.lookup fs0 TEMP_DIR) = true
  · by_cases hm : (some k : Option Step) = some Step.makedirs
    · rw [hm, run_fail_makedirs]
      refine ⟨hdr_notin_cleanup_out _ _ _ _ _ hdr_notin_line1,
        cleanupLine_mem _ _ _ _ _, cleanup_fs_temp _ _ _ _ _ (temp_ne_tar t), ?_, ?_⟩
      · intro _
        rw [cleanup_fs_unbound _ _ _ _ _ (zst_ne_temp t)]
      · intro _
        rw [cleanup_fs_unbound _ _ _ _ _ (tar_ne_temp t)]
    · rw [run_collision _ _ _ _ _ _ hm hF]
      refine ⟨hdr_notin_cleanup_out _ _ _ _ _ hdr_notin_line1,
        cleanupLine_mem _ _ _ _ _, cleanup_fs_temp _ _ _ _ _ (temp_ne_tar t), ?_, ?_⟩
      · intro _
        rw [cleanup_fs_unbound _ _ _ _ _ (zst_ne_temp t)]
      · intro _
        rw [cleanup_fs_unbound _ _ _ _ _ (tar_ne_temp t)]
  · have hF2 : entryIsFile (FS.lookup fs0 TEMP_DIR) = false := by simpa using hF
    cases k with
    | makedirs =>
      rw [run_fail_makedirs]
      refine ⟨hdr_notin_cleanup_out _ _ _ _ _ hdr_notin_line1,
        cleanupLine_mem _ _ _ _ _, cleanup_fs_temp _ _ _ _ _ (temp_ne_tar t), ?_, ?_⟩
      · intro _
        rw [cleanup_fs_unbound _ _ _ _ _ (zst_ne_temp t)]
      · intro _
        rw [cleanup_fs_unbound _ _ _ _ _ (tar_ne_temp t)]
    | writeDummy =>
      rw [run_fail_writeDummy _ _ _ _ _ hF2]
      refine ⟨hdr_notin_cleanup_out _ _ _ _ _ hdr_notin_line1,
        cleanupLine_mem _ _ _ _ _, cleanup_fs_temp _ _ _ _ _ (temp_ne_tar t), ?_, ?_⟩
      · intro _
        rw [cleanup_fs_unbound _ _ _ _ _ (zst_ne_temp t),
            lookup_fs1_other fs0 _ (zst_ne_temp t)]
      · intro _
        rw [cleanup_fs_unbound _ _ _ _ _ (tar_ne_temp t),
            lookup_fs1_other fs0 _ (tar_ne_temp t)]
    | tarCreate =>
      rw [run_fail_tarCreate _ _ _ _ _ hF2]
      refine ⟨hdr_notin_cleanup_out _ _ _ _ _ (hdr_notin_out2 t),
        cleanupLine_mem _ _ _ _ _, cleanup_fs_temp _ _ _ _ _ (temp_ne_tar t), ?_, ?_⟩
      · intro _
        rw [cleanup_fs_other _ _ _ _ _ _ (zst_ne_temp t) (zst_ne_tar t),
            lookup_fs2_other fs0 _ (zst_ne_temp t)]
      · intro hk
        rcases hk with hk | hk <;> exact absurd hk (by decide)
    | zstOpen =>
      rw [run_fail_zstOpen _ _ _ _ _ hF2]
      refine ⟨hdr_notin_cleanup_out _ _ _ _ _ (hdr_notin_out3 t),
        cleanupLine_mem _ _ _ _ _, cleanup_fs_temp _ _ _ _ _ (temp_ne_tar t), ?_, ?_⟩
      · intro _
        rw [cleanup_fs_other _ _ _ _ _ _ (zst_ne_temp t) (zst_ne_tar t),
            lookup_fs3_other ext t fs0 _ (zst_ne_temp t) (zst_ne_tar t)]
      · intro hk
        rcases hk with hk | hk <;> exact absurd hk (by decide)
    | zstCopy =>
      rw [run_fail_zstCopy _ _ _ _ _ hF2]
      refine ⟨hdr_notin_cleanup_out _ _ _ _ _ (hdr_notin_out3 t),
        cleanupLine_mem _ _ _ _ _, cleanup_fs_temp _ _ _ _ _ (temp_ne_tar t), ?_, ?_⟩
      · intro hk
        rcases hk with hk | hk | hk | hk <;> exact absurd hk (by decide)
      · intro hk
        rcases hk with hk | hk <;> exact absurd hk (by decide)
    | hashRead =>
      rw [run_fail_hashRead _ _ _ _ _ hF2]
      refine ⟨hdr_notin_cleanup_out _ _ _ _ _ (hdr_notin_out4 t),
        cleanupLine_mem _ _ _ _ _, cleanup_fs_temp _ _ _ _ _ (temp_ne_tar t), ?_, ?_⟩
      · intro hk
        rcases hk with hk | hk | hk | hk <;> exact absurd hk (by decide)
      · intro hk
        rcases hk with hk | hk <;> exact absurd hk (by decide)
    | printResults =>
      rw [run_fail_printResults _ _ _ _ _ hF2]
      refine ⟨hdr_notin_cleanup_out _ _ _ _ _ (hdr_notin_out4 t),
        cleanupLine_mem _ _ _ _ _, cleanup_fs_temp _ _ _ _ _ (temp_ne_tar t), ?_, ?_⟩
      · intro hk
        rcases hk with hk | hk | hk | hk <;> exact absurd hk (by decide)
      · intro hk
        rcases hk with hk | hk <;> exact absurd hk (by decide)

/-- Closed witness for C7: a fault at the archiving step on an empty working
directory; the results block is absent, cleanup ran, and the compressed
file was never created. -/
theorem C7_fault_stops_later_steps_witness :
    resultsHeader ∉ (run ext0 t0 (some Step.tarCreate) "m" [] []).out ∧
    cleanupLine ∈ (run ext0 t0 (some Step.tarCreate) "m" [] []).out ∧
    FS.lookup (run ext0 t0 (some Step.tarCreate) "m" [] []).fs
      (zst_file_name t0) = FS.lookup ([] : FS) (zst_file_name t0) := by
  obtain ⟨h1, h2, h3, h4, h5⟩ :=
    C7_fault_stops_later_steps ext0 t0 Step.tarCreate "m" [] []
  exact ⟨h1, h2, h4 (Or.inr (Or.inr (Or.inl rfl)))⟩

/-- A fault-free run over a pre-existing scratch directory with contents
`c`: it succeeds, writes the placeholder, and archives `c` with
`README.txt` written into it. -/
theorem run_dir_preexisting (ext : Libs) (t : DT) (msg : String) (pb : Bytes)
    (fs0 : FS) (c : List (String × Bytes))
    (hdir : FS.lookup fs0 TEMP_DIR = some (Entry.dir c)) :
    (run ext t none msg pb fs0).err = none ∧
    ("Created dummy file: " ++ dummy_file_path) ∈ (run ext t none msg pb fs0).out ∧
    FS.lookup (run ext t none msg pb fs0).fs (zst_file_name t) =
      some (Entry.file (ext.zstdC (ext.tarEnc (basename TEMP_DIR)
        (setAssoc c DUMMY_FILE_NAME dummyContent)))) := by
  have hF : entryIsFile (FS.lookup fs0 TEMP_DIR) = false := by
    rw [hdir]
    rfl
  rw [run_ok ext t msg pb fs0 hF]
  refine ⟨cleanup_err _ _ _ _ _, ?_, ?_⟩
  · rw [cleanup_out]
    simp [out5of, out4of, out3of, out2of]
  · rw [cleanup_fs_other _ _ _ _ _ _ (zst_ne_temp t) (zst_ne_tar t), lookup_fs4_zst,
        zstBytes_eq]
    simp [tarBytes, d1of, d0of, hdir, dirContents]

/-- C8: scratch-directory creation is idempotent — when `temp_nginx` already
exists as a directory (with any contents `c`) and no operation faults, the
run does not raise, it goes on to write the placeholder file into that
directory, and the archive it builds is of those contents with `README.txt`
written into them. -/
theorem C8_makedirs_idempotent (ext : Libs) (t : DT) (msg : String) (pb : Bytes)
    (fs0 : FS) (c : List (String × Bytes))
    (hdir : FS.lookup fs0 TEMP_DIR = some (Entry.dir c)) :
    (run ext t none msg pb fs0).err = none ∧
    ("Created dummy file: " ++ dummy_file_path) ∈ (run ext t none msg pb fs0).out ∧
    FS.lookup (run ext t none msg pb fs0).fs (zst_file_name t) =
      some (Entry.file (ext.zstdC (ext.tarEnc (basename TEMP_DIR)
        (setAssoc c DUMMY_FILE_NAME dummyContent)))) :=
  run_dir_preexisting ext t msg pb fs0 c hdir

/-- Closed witness for C8: the scratch directory pre-exists and is empty. -/
theorem C8_makedirs_idempotent_witness :
    (run ext0 t0 none "m" [] [(TEMP_DIR, Entry.dir [])]).err = none ∧
    ("Created dummy file: " ++ dummy_file_path) ∈
      (run ext0 t0 none "m" [] [(TEMP_DIR, Entry.dir [])]).out ∧
    FS.lookup (run ext0 t0 none "m" [] [(TEMP_DIR, Entry.dir [])]).fs
      (zst_file_name t0) =
      some (Entry.file (ext0.zstdC (ext0.tarEnc (basename TEMP_DIR)
        (setAssoc [] DUMMY_FILE_NAME dummyContent)))) :=
  C8_makedirs_idempotent ext0 t0 "m" [] [(TEMP_DIR, Entry.dir [])] []
    (by simp [FS.lookup])

/-- C9: because directory creation tolerates a pre-existing `temp_nginx` and
the whole directory is archived, any file already present in it before the
run (other than the placeholder name itself) ends up in the produced
archive alongside `README.txt`. -/
theorem C9_preexisting_files_archived (ext : Libs) (t : DT) (msg : String)
    (pb : Bytes) (fs0 : FS) (c : List (String × Bytes)) (p : String) (b : Bytes)
    (hdir : FS.lookup fs0 TEMP_DIR = some (Entry.dir c))
    (hmem : (p, b) ∈ c) (hne : p ≠ DUMMY_FILE_NAME) :
    ∃ d, (run ext t none msg pb fs0).err = none ∧
      FS.lookup (run ext t none msg pb fs0).fs (zst_file_name t) =
        some (Entry.file (ext.zstdC (ext.tarEnc (basename TEMP_DIR) d))) ∧
      (p, b) ∈ d ∧ (DUMMY_FILE_NAME, dummyContent) ∈ d := by
  obtain ⟨h1, _, h3⟩ := run_dir_preexisting ext t msg pb fs0 c hdir
  exact ⟨setAssoc c DUMMY_FILE_NAME dummyContent, h1, h3,
    setAssoc_mem_of c DUMMY_FILE_NAME dummyContent (p, b) hmem hne,
    setAssoc_self_mem c DUMMY_FILE_NAME dummyContent⟩

/-- Closed witness for C9: `temp_nginx` pre-exists holding one stray file. -/
theorem C9_preexisting_files_archived_witness :
    ∃ d, (run ext0 t0 none "m" [] [(TEMP_DIR, Entry.dir [("stray.txt", [97])])]).err
        = none ∧
      FS.lookup (run ext0 t0 none "m" []
          [(TEMP_DIR, Entry.dir [("stray.txt", [97])])]).fs (zst_file_name t0) =
        some (Entry.file (ext0.zstdC (ext0.tarEnc (basename TEMP_DIR) d))) ∧
      ("stray.txt", [97]) ∈ d ∧ (DUMMY_FILE_NAME, dummyContent) ∈ d :=
  C9_preexisting_files_archived ext0 t0 "m" []
    [(TEMP_DIR, Entry.dir [("stray.txt", [97])])] [("stray.txt", [97])]
    "stray.txt" [97] (by simp [FS.lookup]) (by simp) (by decide)

/-- The compressed bytes produced by the concrete collaborators when the
scratch directory pre-existed holding `extra.txt`. -/
def zb0 : Bytes :=
  zstdC0 (tarEnc0 (basename TEMP_DIR)
    (setAssoc [("extra.txt", [101])] DUMMY_FILE_NAME dummyContent))

set_option maxRecDepth 10000 in
/-- C3 counterexample: a successful run over a working directory whose
scratch directory pre-existed holding `extra.txt`; extracting the retained
archive yields the scratch directory with TWO files, not exactly one
`README.txt` — so the claim, quantified over every successful run, fails. -/
theorem C3_counterexample :
    (run ext0 t0 none "m" [] [(TEMP_DIR, Entry.dir [("extra.txt", [101])])]).err
      = none ∧
    FS.lookup (run ext0 t0 none "m" []
        [(TEMP_DIR, Entry.dir [("extra.txt", [101])])]).fs (zst_file_name t0) =
      some (Entry.file zb0) ∧
    tarDec0 (zstdD0 zb0) =
      some (basename TEMP_DIR,
        [("extra.txt", [101]), (DUMMY_FILE_NAME, dummyContent)]) ∧
    [("extra.txt", [101]), (DUMMY_FILE_NAME, dummyContent)] ≠
      [(DUMMY_FILE_NAME, dummyContent)] := by
  obtain ⟨h1, _, h3⟩ := run_dir_preexisting ext0 t0 "m" []
    [(TEMP_DIR, Entry.dir [("extra.txt", [101])])] [("extra.txt", [101])]
    (by simp [FS.lookup])
  exact ⟨h1, h3, by decide, by decide⟩

/-- C3 (amended): for every successful run over a working directory in which
the scratch directory did not already exist, extracting the retained
archive (through any decompressor and extractor that invert the
collaborators on the produced archive) yields exactly one top-level entry,
a directory named like the scratch directory's base name, containing
exactly the file `README.txt` with the two fixed lines. -/
theorem C3_amended_single_readme (ext : Libs) (t : DT) (failAt : Option Step)
    (msg : String) (pb : Bytes) (fs0 : FS)
    (zd : Bytes → Bytes) (td : Bytes → Option (String × List (String × Bytes)))
    (hpre : FS.lookup fs0 TEMP_DIR = none)
    (hrt : td (zd (ext.zstdC (ext.tarEnc (basename TEMP_DIR)
        [(DUMMY_FILE_NAME, dummyContent)]))) =
      some (basename TEMP_DIR, [(DUMMY_FILE_NAME, dummyContent)]))
    (h : (run ext t failAt msg pb fs0).err = none) :
    ∃ zb, FS.lookup (run ext t failAt msg pb fs0).fs (zst_file_name t) =
        some (Entry.file zb) ∧
      td (zd zb) = some (basename TEMP_DIR, [(DUMMY_FILE_NAME, dummyContent)]) := by
  obtain ⟨hfa, hF⟩ := err_none_split ext t failAt msg pb fs0 h
  subst hfa
  rw [run_ok ext t msg pb fs0 hF]
  refine ⟨zstBytes ext t fs0, ?_, ?_⟩
  · rw [cleanup_fs_other _ _ _ _ _ _ (zst_ne_temp t) (zst_ne_tar t), lookup_fs4_zst]
  · have hz : zstBytes ext t fs0 =
        ext.zstdC (ext.tarEnc (basename TEMP_DIR) [(DUMMY_FILE_NAME, dummyContent)]) := by
      rw [zstBytes_eq]
      simp [tarBytes, d1of, d0of, hpre, dirContents, setAssoc]
    rw [hz]
    exact hrt

set_option maxRecDepth 10000 in
/-- Closed witness for the amended C3: concrete collaborators, their genuine
inverses, and an empty working directory. -/
theorem C3_amended_single_readme_witness :
    ∃ zb, FS.lookup (run ext0 t0 none "m" [] []).fs (zst_file_name t0) =
        some (Entry.file zb) ∧
      tarDec0 (zstdD0 zb) =
        some (basename TEMP_DIR, [(DUMMY_FILE_NAME, dummyContent)]) :=
  C3_amended_single_readme ext0 t0 none "m" [] [] zstdD0 tarDec0 rfl (by decide) rfl

/-- C10: when the compression copy itself faults after the output stream was
opened, the partially written `.tar.zst` file (contents `pb`) remains on
disk after the run, while cleanup removes only the scratch directory and
the intermediate tar file. -/
theorem C10_partial_output_remains (ext : Libs) (t : DT) (msg : String)
    (pb : Bytes) (fs0 : FS)
    (hc : entryIsFile (FS.lookup fs0 TEMP_DIR) = false) :
    (run ext t (some Step.zstCopy) msg pb fs0).err = some msg ∧
    FS.lookup (run ext t (some Step.zstCopy) msg pb fs0).fs (zst_file_name t) =
      some (Entry.file pb) ∧
    FS.lookup (run ext t (some Step.zstCopy) msg pb fs0).fs TEMP_DIR = none ∧
    FS.lookup (run ext t (some Step.zstCopy) msg pb fs0).fs (tar_file_name t) =
      none := by
  rw [run_fail_zstCopy _ _ _ _ _ hc]
  refine ⟨cleanup_err _ _ _ _ _, ?_, cleanup_fs_temp _ _ _ _ _ (temp_ne_tar t),
    cleanup_fs_tar _ _ _ _⟩
  rw [cleanup_fs_other _ _ _ _ _ _ (zst_ne_temp t) (zst_ne_tar t), FS.lookup_set_self]

/-- Closed witness for C10 at concrete inputs. -/
theorem C10_partial_output_remains_witness :
    (run ext0 t0 (some Step.zstCopy) "m" [1, 2, 3] []).err = some "m" ∧
    FS.lookup (run ext0 t0 (some Step.zstCopy) "m" [1, 2, 3] []).fs
      (zst_file_name t0) = some (Entry.file [1, 2, 3]) ∧
    FS.lookup (run ext0 t0 (some Step.zstCopy) "m" [1, 2, 3] []).fs TEMP_DIR
      = none ∧
    FS.lookup (run ext0 t0 (some Step.zstCopy) "m" [1, 2, 3] []).fs
      (tar_file_name t0) = none :=
  C10_partial_output_remains ext0 t0 "m" [1, 2, 3] [] rfl

/-- C5 counterexample: a run in which the placeholder-file write raises (an
exception during steps 1 to 6, duly caught and printed) does NOT terminate
normally — the `finally` block raises an uncaught `NameError` because
`tar_file_name` was never bound. -/
theorem C5_counterexample :
    (run ext0 t0 (some Step.writeDummy) "disk full" [] []).err = some "disk full" ∧
    ("An error occurred: disk full") ∈
      (run ext0 t0 (some Step.writeDummy) "disk full" [] []).out ∧
    (run ext0 t0 (some Step.writeDummy) "disk full" [] []).nameError = true := by
  refine ⟨rfl, by decide, rfl⟩

/-- C5 (amended): for every run in which an exception is raised at or after
the archiving step (so after line 31 bound the tar filename) and the
scratch path is not occupied by a regular file, the exception is caught,
the `An error occurred` line is printed, cleanup runs and removes the
scratch directory, and the process terminates normally; when the exception
is raised before that point the cleanup's tar-file existence check itself
raises an uncaught `NameError`. -/
theorem C5_amended_caught_and_cleaned (ext : Libs) (t : DT) (k : Step)
    (msg : String) (pb : Bytes) (fs0 : FS)
    (hbound : Step.namesBound k = true)
    (hc : entryIsFile (FS.lookup fs0 TEMP_DIR) = false) :
    (run ext t (some k) msg pb fs0).err = some msg ∧
    ("An error occurred: " ++ msg) ∈ (run ext t (some k) msg pb fs0).out ∧
    cleanupLine ∈ (run ext t (some k) msg pb fs0).out ∧
    FS.lookup (run ext t (some k) msg pb fs0).fs TEMP_DIR = none ∧
    (run ext t (some k) msg pb fs0).nameError = false := by
  cases k with
  | makedirs => exact absurd hbound (by decide)
  | writeDummy => exact absurd hbound (by decide)
  | tarCreate =>
    rw [run_fail_tarCreate _ _ _ _ _ hc]
    exact ⟨cleanup_err _ _ _ _ _, errLine_mem _ _ _ _ _, cleanupLine_mem _ _ _ _ _,
      cleanup_fs_temp _ _ _ _ _ (temp_ne_tar t), rfl⟩
  | zstOpen =>
    rw [run_fail_zstOpen _ _ _ _ _ hc]
    exact ⟨cleanup_err _ _ _ _ _, errLine_mem _ _ _ _ _, cleanupLine_mem _ _ _ _ _,
      cleanup_fs_temp _ _ _ _ _ (temp_ne_tar t), rfl⟩
  | zstCopy =>
    rw [run_fail_zstCopy _ _ _ _ _ hc]
    exact ⟨cleanup_err _ _ _ _ _, errLine_mem _ _ _ _ _, cleanupLine_mem _ _ _ _ _,
      cleanup_fs_temp _ _ _ _ _ (temp_ne_tar t), rfl⟩
  | hashRead =>
    rw [run_fail_hashRead _ _ _ _ _ hc]
    exact ⟨cleanup_err _ _ _ _ _, errLine_mem _ _ _ _ _, cleanupLine_mem _ _ _ _ _,
      cleanup_fs_temp _ _ _ _ _ (temp_ne_tar t), rfl⟩
  | printResults =>
    rw [run_fail_printResults _ _ _ _ _ hc]
    exact ⟨cleanup_err _ _ _ _ _, errLine_mem _ _ _ _ _, cleanupLine_mem _ _ _ _ _,
      cleanup_fs_temp _ _ _ _ _ (temp_ne_tar t), rfl⟩

/-- Closed witness for the amended C5: a fault at the archiving step. -/
theorem C5_amended_caught_and_cleaned_witness :
    (run ext0 t0 (some Step.tarCreate) "m" [] []).err = some "m" ∧
    ("An error occurred: " ++ "m") ∈ (run ext0 t0 (some Step.tarCreate) "m" [] []).out ∧
    cleanupLine ∈ (run ext0 t0 (some Step.tarCreate) "m" [] []).out ∧
    FS.lookup (run ext0 t0 (some Step.tarCreate) "m" [] []).fs TEMP_DIR = none ∧
    (run ext0 t0 (some Step.tarCreate) "m" [] []).nameError = false :=
  C5_amended_caught_and_cleaned ext0 t0 Step.tarCreate "m" [] [] rfl rfl

/-- C1 (evaluation of the code at the failing input): when `os.makedirs`
raises — as in a read-only working directory — before line 31 has bound
`tar_file_name`, the error is caught and printed and the scratch cleanup
line is printed, but the `finally` block's `os.path.exists(tar_file_name)`
raises an uncaught `NameError`: the run does NOT terminate without a
secondary unhandled error, contrary to the claim. -/
theorem C1_early_failure_uncaught_name_error :
    (run ext0 t0 (some Step.makedirs) "Permission denied" [] []).err =
      some "Permission denied" ∧
    ("An error occurred: Permission denied") ∈
      (run ext0 t0 (some Step.makedirs) "Permission denied" [] []).out ∧
    cleanupLine ∈ (run ext0 t0 (some Step.makedirs) "Permission denied" [] []).out ∧
    (run ext0 t0 (some Step.makedirs) "Permission denied" [] []).nameError = true := by
  refine ⟨rfl, by decide, by decide, rfl⟩
